import Mathlib

/-! Data-collection harness: GitHub issue collector and Stack Overflow Q&A collector.

Shallow embedding of `github_code/github.go` and `stackoverflow_code/stackoverflow.go`.

* External collaborators (the GitHub API, the HTTP transport, the HTML parser, the database
  server, the clock) are oracles collected in an `Env`; an oracle is indexed by the number
  of requests issued so far, so that two identical requests may be answered differently.
* Process state (metric vectors, database contents, the log of requests sent) is passed
  explicitly.
* Metric values are exact rationals; a gauge value additionally has the three non-numeric
  results a floating-point division can produce.
* Output written with `fmt.Printf` / `log.Printf` and the sleeps are not part of the state.
-/

namespace Collector

/-! ## Library pieces shared by the two programs -/

/-- Go `error` values that the programs produce or pass on, tagged by where they arise. -/
inductive Err where
  /-- the value built by `fmt.Errorf("invalid GitHub repository URL: %s", repoURL)` -/
  | invalidRepoURL (msg : String)
  /-- an error returned by a remote call (HTTP client, GitHub client, body reader, parser) -/
  | remote (msg : String)
  /-- an error returned by `sql.Open` or `db.Exec` -/
  | db (msg : String)
  deriving DecidableEq, Repr

/-- Result of a function that returns `(value, error)` and may also panic at run time. -/
inductive Outcome (α : Type) where
  | ok (val : α)
  | err (e : Err)
  | panic (msg : String)
  deriving DecidableEq, Repr

/-- `strings.TrimPrefix(s, pre)`. -/
def TrimPrefix (s pre : String) : String :=
  if pre.data.isPrefixOf s.data then ⟨s.data.drop pre.data.length⟩ else s

/-- Loop of `strings.Split` for a one-character separator: `cur` is the segment being read. -/
def splitLoop (sep : Char) : List Char → List Char → List String
  | [], cur => [⟨cur⟩]
  | c :: cs, cur =>
    if c = sep then ⟨cur⟩ :: splitLoop sep cs [] else splitLoop sep cs (cur ++ [c])

/-- `strings.Split(s, sep)` for a separator `sep` of one character (the programs use `"/"`). -/
def Split (s : String) (sep : Char) : List String :=
  splitLoop sep s.data []

/-- `time.Duration`: a signed count of nanoseconds held in an `int64`, so a value lies in
`[-2^63, 2^63)`; the one operation of the programs that can leave that range, the negation
in `Add(-duration)`, wraps explicitly (see `wrapInt64`). -/
abbrev Duration := Int

/-- Two's-complement wrap of an integer into the `int64` range. -/
def wrapInt64 (x : Int) : Int :=
  (x + 9223372036854775808) % 18446744073709551616 - 9223372036854775808

/-- `time.Second`. -/
def Second : Duration := 1000000000

/-- `time.Hour`. -/
def Hour : Duration := 3600 * Second

/-- `Duration.Seconds()` in exact arithmetic. -/
def Seconds (d : Duration) : ℚ := (d : ℚ) / 1000000000

/-- Value held by a gauge: a number, or one of the non-numeric results of a division. -/
inductive GaugeValue where
  | num (q : ℚ)
  | posInf
  | negInf
  | nan
  deriving DecidableEq

/-- Floating-point quotient `a / b` (exact when `b ≠ 0`; infinite or NaN when `b = 0`). -/
def fdiv (a b : ℚ) : GaugeValue :=
  if b ≠ 0 then .num (a / b)
  else if 0 < a then .posInf
  else if a < 0 then .negInf
  else .nan

/-- Floating-point sum of a gauge value and a number. -/
def GaugeValue.add : GaugeValue → ℚ → GaugeValue
  | .num q, v => .num (q + v)
  | .posInf, _ => .posInf
  | .negInf, _ => .negInf
  | .nan, _ => .nan

/-- The four labelled metric vectors each program registers. -/
structure Metrics where
  apiCalls : String → ℚ
  dataCollected : String → ℚ
  apiCallsPerSecond : String → GaugeValue
  dataCollectedPerSecond : String → GaugeValue

/-- `vec.WithLabelValues(label).Add(v)` on a counter vector. -/
def counterAdd (vec : String → ℚ) (label : String) (v : ℚ) : String → ℚ :=
  Function.update vec label (vec label + v)

/-- `vec.WithLabelValues(label).Inc()` on a counter vector. -/
def counterInc (vec : String → ℚ) (label : String) : String → ℚ :=
  counterAdd vec label 1

/-- `vec.WithLabelValues(label).Set(v)` on a gauge vector. -/
def gaugeSet (vec : String → GaugeValue) (label : String) (v : GaugeValue) :
    String → GaugeValue :=
  Function.update vec label v

/-- `vec.WithLabelValues(label).Inc()` on a gauge vector. -/
def gaugeInc (vec : String → GaugeValue) (label : String) : String → GaugeValue :=
  Function.update vec label ((vec label).add 1)

/-- Metrics of a freshly started process: every series reads zero. -/
def Metrics.fresh : Metrics :=
  ⟨fun _ => 0, fun _ => 0, fun _ => .num 0, fun _ => .num 0⟩

/-- Statements the programs send to the database (`ρ` is the record inserted). -/
inductive Stmt (ρ : Type) where
  | createTable
  | insert (row : ρ)
  deriving DecidableEq

/-- The database server as seen by one program: the table, every statement attempted so
far, and the error (if any) with which the server answers the `n`-th statement. -/
structure DB (ρ : Type) where
  tableExists : Bool
  rows : List ρ
  attempted : List (Stmt ρ)
  faults : Nat → Option String

/-- `db.Exec(stmt)`: returns the error (`none` is `nil`) and the database afterwards. -/
def DB.Exec {ρ : Type} (db : DB ρ) (stmt : Stmt ρ) : Option Err × DB ρ :=
  let db1 : DB ρ := { db with attempted := db.attempted ++ [stmt] }
  match db.faults db.attempted.length with
  | some e => (some (.db e), db1)
  | none =>
    match stmt with
    | .createTable => (none, { db1 with tableExists := true })
    | .insert row =>
      if db.tableExists then (none, { db1 with rows := db.rows ++ [row] })
      else (some (.db "relation does not exist"), db1)

/-- An empty database whose server answers according to `faults`. -/
def DB.empty {ρ : Type} (faults : Nat → Option String) : DB ρ :=
  ⟨false, [], [], faults⟩

/-- The insert loop shared by the two save functions (`github.go` lines 90-96,
`stackoverflow.go` lines 179-185): one `INSERT` per record, returning at the first error. -/
def insertLoop {ρ : Type} : List ρ → DB ρ → Option Err × DB ρ
  | [], db => (none, db)
  | record :: rest, db =>
    match db.Exec (.insert record) with
    | (some e, db1) => (some e, db1)
    | (none, db1) => insertLoop rest db1

/-- A server that answers every statement without error. -/
def noFaults : Nat → Option String := fun _ => none

/-- A server that fails exactly the `n`-th statement it receives. -/
def faultAt (n : Nat) (msg : String) : Nat → Option String :=
  fun i => if i = n then some msg else none

/-! ## `github_code/github.go` -/

namespace GitHub

/-- The fields of `github.Issue` the program reads; each is a pointer and may be `nil`. -/
structure Issue where
  ID : Option Int
  Title : Option String
  Body : Option String
  deriving DecidableEq

/-- `GitHubIssue`. -/
structure GitHubIssue where
  ID : Int
  Title : String
  Body : String
  deriving DecidableEq

/-- One `client.Issues.ListByRepo` request. -/
structure ListRequest where
  token : String
  owner : String
  repo : String
  since : Int
  deriving DecidableEq

/-- External collaborators of the GitHub collector. -/
structure Env where
  /-- `time.Now()` as an instant in nanoseconds, read while preparing the `n`-th request;
  `time.Time` counts seconds in an `int64`, so adding a duration to it is exact -/
  now : Nat → Int
  /-- answer of the GitHub API to the `n`-th list-issues request -/
  listByRepo : Nat → ListRequest → Except String (List Issue)

/-- Process state of the GitHub collector. -/
structure State where
  db : DB GitHubIssue
  metrics : Metrics
  requests : List ListRequest

/-- `saveGitHubIssuesToDatabase(issues, db, repository)`. -/
def saveGitHubIssuesToDatabase (issues : List GitHubIssue) (repository : String)
    (s : State) : Option Err × State :=
  match s.db.Exec .createTable with
  | (some e, db1) => (some e, { s with db := db1 })
  | (none, db1) =>
    match insertLoop issues db1 with
    | (some e, db2) => (some e, { s with db := db2 })
    | (none, db2) =>
      (none, { s with
        db := db2
        metrics := { s.metrics with
          apiCalls := counterInc s.metrics.apiCalls repository
          dataCollected :=
            counterAdd s.metrics.dataCollected repository (issues.length : ℚ) } })

/-- The conversion loop of `fetchGitHubIssues` (lines 133-140): dereferences the three
pointers of every issue; dereferencing `nil` panics. -/
def convertLoop : List Issue → List GitHubIssue → Outcome (List GitHubIssue)
  | [], githubIssues => .ok githubIssues
  | issue :: rest, githubIssues =>
    match issue.ID, issue.Title, issue.Body with
    | some id, some title, some body =>
      convertLoop rest (githubIssues ++ [⟨id, title, body⟩])
    | _, _, _ => .panic "runtime error: invalid memory address or nil pointer dereference"

/-- `fetchGitHubIssues(repoURL, token, duration)`. -/
def fetchGitHubIssues (env : Env) (repoURL token : String) (duration : Duration)
    (s : State) : Outcome (List GitHubIssue) × State :=
  let parts := Split (TrimPrefix repoURL "https://github.com/") '/'
  if parts.length ≠ 2 then
    (.err (.invalidRepoURL ("invalid GitHub repository URL: " ++ repoURL)), s)
  else
    let owner := parts.getD 0 ""
    let repo := parts.getD 1 ""
    let startDate := env.now s.requests.length + wrapInt64 (-duration)
    let req : ListRequest := ⟨token, owner, repo, startDate⟩
    let s1 : State := { s with requests := s.requests ++ [req] }
    match env.listByRepo s.requests.length req with
    | .error e => (.err (.remote e), s1)
    | .ok issues => (convertLoop issues [], s1)

/-- Body of the inner loop of `main` (lines 181-201) for one `(githubURL, duration)` pair.
`none` means the process died in a panic. -/
def iteration (env : Env) (token githubURL : String) (duration : Duration)
    (s : State) : Option State :=
  match fetchGitHubIssues env githubURL token duration s with
  | (.panic _, _) => none
  | (.err _, s1) => some s1
  | (.ok issues, s1) =>
    let s2 := (saveGitHubIssuesToDatabase issues githubURL s1).2
    some { s2 with
      metrics := { s2.metrics with
        apiCallsPerSecond :=
          gaugeSet s2.metrics.apiCallsPerSecond githubURL
            (fdiv (s2.metrics.apiCalls githubURL) (Seconds duration))
        dataCollectedPerSecond :=
          gaugeSet s2.metrics.dataCollectedPerSecond githubURL
            (fdiv (s2.metrics.dataCollected githubURL) (Seconds duration)) } }

/-- The loop over `durations` for one URL (lines 180-202). -/
def runDurations (env : Env) (token githubURL : String) :
    List Duration → State → Option State
  | [], s => some s
  | d :: ds, s =>
    match iteration env token githubURL d s with
    | none => none
    | some s1 => runDurations env token githubURL ds s1

/-- The loop over `githubURLs` (lines 178-205). -/
def runURLs (env : Env) (token : String) (durations : List Duration) :
    List String → State → Option State
  | [], s => some s
  | u :: us, s =>
    match runDurations env token u durations s with
    | none => none
    | some s1 => runURLs env token durations us s1

/-- `githubURLs` of `main`. -/
def githubURLs : List String :=
  ["https://github.com/prometheus/prometheus",
   "https://github.com/SeleniumHQ/selenium",
   "https://github.com/openai/openai-python",
   "https://github.com/docker/docs",
   "https://github.com/milvus-io/milvus",
   "https://github.com/golang/go"]

/-- `durations` of `main`. -/
def durations : List Duration := [48 * Hour, 7 * 24 * Hour, 45 * 24 * Hour]

/-- `main` up to the final `select {}`, from the state at start-up. -/
def main (env : Env) (s : State) : Option State :=
  runURLs env "your_personal_access_token" durations githubURLs s

/-- State of a freshly started process facing an empty database. -/
def State.fresh (faults : Nat → Option String) : State :=
  ⟨DB.empty faults, Metrics.fresh, []⟩

end GitHub

/-! ## `stackoverflow_code/stackoverflow.go` -/

namespace StackOverflow

/-- Result of a function that returns `(value, error)`. -/
inductive Result (α : Type) where
  | ok (val : α)
  | err (e : Err)
  deriving DecidableEq, Repr

/-- Element type of `StackOverflowResponse.Items`. -/
structure Item where
  QuestionID : Int
  Title : String
  QuestionBody : String
  AnswerBody : String
  deriving DecidableEq

/-- `StackOverflowResponse`. -/
structure StackOverflowResponse where
  Items : List Item
  deriving DecidableEq

/-- What the program selects from one node matching `.question-summary`. -/
structure Summary where
  /-- result of `s.Find(".question-hyperlink").Attr("href")`; `none` when it does not exist -/
  href : Option String
  /-- result of `s.Find(".question-hyperlink").Text()` -/
  hyperlinkText : String
  /-- result of `s.Find(".excerpt").Text()` -/
  excerptText : String
  deriving DecidableEq

/-- What the program selects from a parsed HTML document. -/
structure Document where
  /-- the nodes matching `.question-summary`, in document order -/
  questionSummaries : List Summary
  /-- the text of each node matching `.js-post-body`, in document order -/
  postBodies : List String
  deriving DecidableEq

/-- An HTTP response: the outcome of reading its body to the end. -/
structure Response where
  body : Except String String

/-- External collaborators of the Stack Overflow collector. -/
structure Env where
  /-- `time.Now()` as an instant in nanoseconds, read while preparing the `n`-th HTTP
  request; `time.Time` counts seconds in an `int64`, so adding a duration to it is exact -/
  now : Nat → Int
  /-- answer to the `n`-th HTTP GET request -/
  httpGet : Nat → String → Except String Response
  /-- the HTML parser applied to a body that was read completely -/
  parseHTML : String → Except String Document
  /-- error returned by `sql.Open` (`none` is `nil`) -/
  sqlOpen : Option String

/-- Process state of the Stack Overflow collector. -/
structure State where
  db : DB Item
  metrics : Metrics
  requests : List String

/-- `isSpace` of package `fmt`. -/
def isSpace (c : Char) : Bool :=
  let n := c.toNat
  (0x0009 ≤ n && n ≤ 0x000d) || n == 0x0020 || n == 0x0085 || n == 0x00a0 || n == 0x1680 ||
    (0x2000 ≤ n && n ≤ 0x200a) || (0x2028 ≤ n && n ≤ 0x2029) || n == 0x202f ||
    n == 0x205f || n == 0x3000

/-- `SkipSpace` of a scan state created by `Sscanf`: a newline is an error (`none`). -/
def skipSpace : List Char → Option (List Char)
  | [] => some []
  | c :: cs =>
    if c = '\n' then none
    else if isSpace c then skipSpace cs
    else some (c :: cs)

/-- Value of a string of decimal digits. -/
def digitsValue (ds : List Char) : Nat :=
  ds.foldl (fun acc c => 10 * acc + (c.toNat - '0'.toNat)) 0

/-- `fmt.Sscanf(href, "/questions/%d", &id)`: `some n` when `n` is stored into `id`,
`none` when the scan fails and `id` is left untouched. The literal text must match, blanks
before the number are skipped, an optional sign and the longest run of the digits `0`-`9`
form the token (what follows it is not read), which must hold at least one digit and parse
as a base-10 64-bit integer (`int` is 64 bits wide). -/
def scanQuestionID (href : String) : Option Int :=
  if ¬ "/questions/".data.isPrefixOf href.data then none
  else
    match skipSpace (href.data.drop "/questions/".data.length) with
    | none => none
    | some input =>
      let signed : Bool × List Char :=
        match input with
        | '+' :: t => (false, t)
        | '-' :: t => (true, t)
        | t => (false, t)
      let tok := signed.2.takeWhile (fun c => c.isDigit)
      if tok.isEmpty then none
      else
        let v : Int := if signed.1 then -(digitsValue tok : Int) else (digitsValue tok : Int)
        if -9223372036854775808 ≤ v ∧ v ≤ 9223372036854775807 then some v else none

/-- The question identifier as extracted by lines 114-117: the scanned number when the
`href` attribute exists and scans, the zero value otherwise. -/
def questionID (s : Summary) : Int :=
  match s.href with
  | some href => (scanQuestionID href).getD 0
  | none => 0

/-- `fetchAnswerBody(url)`, on the log of requests sent. -/
def fetchAnswerBody (env : Env) (url : String) (requests : List String) :
    Result String × List String :=
  let requests1 := requests ++ [url]
  match env.httpGet requests.length url with
  | .error e => (.err (.remote e), requests1)
  | .ok resp =>
    match resp.body with
    | .error e => (.err (.remote e), requests1)
    | .ok body =>
      match env.parseHTML body with
      | .error e => (.err (.remote e), requests1)
      | .ok doc => (.ok (doc.postBodies.headD ""), requests1)

/-- The address of the question page (line 122): the site root joined with `href`, which
is the empty string when the attribute does not exist. -/
def answerURL (s : Summary) : String :=
  "https://stackoverflow.com" ++ s.href.getD ""

/-- The callback of `Each` (lines 105-129), iterated over the matched nodes: `items` is
`stackOverflowData.Items`. -/
def eachLoop (env : Env) : List Summary → List Item → List String → List Item × List String
  | [], items, requests => (items, requests)
  | s :: rest, items, requests =>
    let fetched := fetchAnswerBody env (answerURL s) requests
    let answerBody :=
      match fetched.1 with
      | .ok body => body
      | .err _ => ""
    let item : Item := ⟨questionID s, s.hyperlinkText, s.excerptText, answerBody⟩
    eachLoop env rest (items ++ [item]) fetched.2

/-- Line 84: the URL with `&startdate=<unix seconds of startDate>` appended. -/
def withStartDate (url : String) (startDate : Int) : String :=
  url ++ ("&startdate=" ++ toString (Int.fdiv startDate Second))

/-- `fetchStackOverflowData(url, queryLabel, duration)`. -/
def fetchStackOverflowData (env : Env) (url queryLabel : String) (duration : Duration)
    (s : State) : Result StackOverflowResponse × State :=
  let s0 : State :=
    { s with metrics := { s.metrics with apiCalls := counterInc s.metrics.apiCalls queryLabel } }
  let startDate := env.now s.requests.length + wrapInt64 (-duration)
  let url1 := withStartDate url startDate
  let s1 : State := { s0 with requests := s.requests ++ [url1] }
  match env.httpGet s.requests.length url1 with
  | .error e => (.err (.remote e), s1)
  | .ok resp =>
    match resp.body with
    | .error e => (.err (.remote e), s1)
    | .ok body =>
      match env.parseHTML body with
      | .error e => (.err (.remote e), s1)
      | .ok doc =>
        let looped := eachLoop env doc.questionSummaries [] s1.requests
        (.ok ⟨looped.1⟩,
          { s1 with
            requests := looped.2
            metrics := { s1.metrics with
              dataCollected :=
                counterAdd s1.metrics.dataCollected queryLabel (looped.1.length : ℚ) } })

/-- `saveToDatabase(data)`. -/
def saveToDatabase (env : Env) (data : StackOverflowResponse) (s : State) :
    Option Err × State :=
  match env.sqlOpen with
  | some e => (some (.db e), s)
  | none =>
    match s.db.Exec .createTable with
    | (some e, db1) => (some e, { s with db := db1 })
    | (none, db1) =>
      match insertLoop data.Items db1 with
      | (some e, db2) => (some e, { s with db := db2 })
      | (none, db2) => (none, { s with db := db2 })

/-- One element of `urls` in `main`. -/
structure Entry where
  URL : String
  Query : String
  deriving DecidableEq

/-- Body of the inner loop of `main` (lines 217-236) for one `(duration, entry)` pair. -/
def iteration (env : Env) (duration : Duration) (entry : Entry) (s : State) : State :=
  match fetchStackOverflowData env entry.URL entry.Query duration s with
  | (.err _, s1) => s1
  | (.ok stackOverflowData, s1) =>
    let s2 := (saveToDatabase env stackOverflowData s1).2
    { s2 with
      metrics := { s2.metrics with
        apiCallsPerSecond := gaugeInc s2.metrics.apiCallsPerSecond entry.Query
        dataCollectedPerSecond := gaugeInc s2.metrics.dataCollectedPerSecond entry.Query } }

/-- The loop over `urls` for one duration (lines 216-238). -/
def runEntries (env : Env) (duration : Duration) : List Entry → State → State
  | [], s => s
  | entry :: rest, s => runEntries env duration rest (iteration env duration entry s)

/-- The loop over `durations` (lines 214-241). -/
def runDurations (env : Env) (urls : List Entry) : List Duration → State → State
  | [], s => s
  | d :: ds, s => runDurations env urls ds (runEntries env d urls s)

/-- `urls` of `main`. -/
def urls : List Entry :=
  [⟨"https://stackoverflow.com/search?q=Prometheus", "Prometheus"⟩,
   ⟨"https://stackoverflow.com/search?q=selenium-webdriver", "selenium-webdriver"⟩,
   ⟨"https://stackoverflow.com/search?q=OpenAi", "OpenAi"⟩,
   ⟨"https://stackoverflow.com/search?q=docker", "docker"⟩,
   ⟨"https://stackoverflow.com/search?q=milvus", "milvus"⟩,
   ⟨"https://stackoverflow.com/search?q=golang", "golang"⟩]

/-- `durations` of `main`. -/
def durations : List Duration := [48 * Hour, 7 * 24 * Hour, 45 * 24 * Hour]

/-- `main` up to the final `select {}`, from the state at start-up. -/
def main (env : Env) (s : State) : State :=
  runDurations env urls durations s

/-- State of a freshly started process facing an empty database. -/
def State.fresh (faults : Nat → Option String) : State :=
  ⟨DB.empty faults, Metrics.fresh, []⟩

end StackOverflow

end Collector

/-! ## Predicates used to state the scenarios -/

namespace Collector

namespace GitHub

/-- The iteration for `(githubURL, duration)` succeeds from `s`: the fetch returns issues
and the save that follows returns no error. -/
def iterationSucceeds (env : Env) (token githubURL : String) (duration : Duration)
    (s : State) : Bool :=
  match fetchGitHubIssues env githubURL token duration s with
  | (.ok issues, s1) => (saveGitHubIssuesToDatabase issues githubURL s1).1 == none
  | _ => false

/-- Every iteration of the loop over `durations` succeeds, each from the state its
predecessor left. -/
def allSucceed (env : Env) (token githubURL : String) : List Duration → State → Bool
  | [], _ => true
  | d :: ds, s =>
    iterationSucceeds env token githubURL d s &&
      match iteration env token githubURL d s with
      | some s1 => allSucceed env token githubURL ds s1
      | none => false

end GitHub

end Collector

/-! ## Concrete environments used to evaluate the programs -/

namespace Collector

namespace GitHub

/-- A GitHub API that answers every list-issues request with `issues`; the clock reads 0. -/
def Env.answering (issues : List Issue) : Env :=
  ⟨fun _ => 0, fun _ _ => .ok issues⟩

/-- The two issues of scenario S1 as the API returns them. -/
def twoIssues : List Issue :=
  [⟨some 1, some "a", some "x"⟩, ⟨some 2, some "b", some ""⟩]

/-- The two issues of scenario S1 after conversion. -/
def twoRecords : List GitHubIssue :=
  [⟨1, "a", "x"⟩, ⟨2, "b", ""⟩]

/-- A batch of three records. -/
def threeRecords : List GitHubIssue :=
  [⟨1, "a", "x"⟩, ⟨2, "b", ""⟩, ⟨3, "c", "z"⟩]

end GitHub

end Collector

namespace Collector

namespace StackOverflow

/-- A batch of three question records. -/
def threeItems : List Item :=
  [⟨42, "T", "E", "A"⟩, ⟨43, "U", "F", ""⟩, ⟨44, "V", "G", "B"⟩]

/-- An environment for a process that starts with an empty request log: the first request
(the search page) is answered with a body that parses to `search`; every later request
(a question page) is answered with `followUp`, whose body, when read, parses to `answer`.
The clock reads 0 and `sql.Open` succeeds. -/
def Env.scripted (search : Document) (followUp : Except String Response)
    (answer : Document) : Env :=
  ⟨fun _ => 0,
    fun n _ => if n = 0 then .ok ⟨.ok "search"⟩ else followUp,
    fun body => if body = "search" then .ok search else .ok answer,
    none⟩

/-- The search page of scenario S3: one summary, `href="/questions/42"`. -/
def searchPage : Document :=
  ⟨[⟨some "/questions/42", "T", "E"⟩], []⟩

/-- The question page of scenario S3: its first post body reads `A`. -/
def questionPage : Document :=
  ⟨[], ["A"]⟩

/-- A search page with two summaries: the first hyperlink has no `href`, the second has
one that is not a question link. -/
def unparsedPage : Document :=
  ⟨[⟨none, "T", "E"⟩, ⟨some "/users/7", "U", "F"⟩], []⟩

/-- The source of scenario S3. -/
def topic : Entry :=
  ⟨"https://qa.example/search?q=topic", "topic"⟩

/-- An environment in which `sql.Open` succeeds and every HTTP request fails. -/
def Env.offline : Env :=
  ⟨fun _ => 0, fun _ _ => .error "no route to host", fun _ => .error "not parsed", none⟩

end StackOverflow

end Collector

/-! ## Theorems -/

namespace Collector

/-! ### Auxiliary facts -/

theorem convertLoop_ne_err (issues : List GitHub.Issue) (acc : List GitHub.GitHubIssue)
    (e : Err) : GitHub.convertLoop issues acc ≠ .err e := by
  induction issues generalizing acc with
  | nil => simp [GitHub.convertLoop]
  | cons i rest ih =>
    rcases i with ⟨id, title, body⟩
    cases id <;> cases title <;> cases body <;> simp [GitHub.convertLoop, ih]

theorem fetch_of_bad_length (env : GitHub.Env) (repoURL token : String) (d : Duration)
    (s : GitHub.State)
    (h : (Split (TrimPrefix repoURL "https://github.com/") '/').length ≠ 2) :
    GitHub.fetchGitHubIssues env repoURL token d s =
      (.err (.invalidRepoURL ("invalid GitHub repository URL: " ++ repoURL)), s) := by
  simp [GitHub.fetchGitHubIssues, h]

/-! ### GitHub collector -/

namespace GitHub

/-- C5: a repository URL whose remainder after the prefix does not split into exactly two
segments makes `fetchGitHubIssues` return the invalid-URL error with the state (and so the
log of remote requests) untouched, and the scheduler iteration then returns the very state
it started from: store, counters and gauges are unchanged. -/
theorem bad_segment_count_changes_nothing (env : Env) (repoURL token : String)
    (d : Duration) (s : State)
    (h : (Split (TrimPrefix repoURL "https://github.com/") '/').length ≠ 2) :
    fetchGitHubIssues env repoURL token d s =
        (.err (.invalidRepoURL ("invalid GitHub repository URL: " ++ repoURL)), s) ∧
      (fetchGitHubIssues env repoURL token d s).2.requests = s.requests ∧
      iteration env token repoURL d s = some s := by
  have hf := fetch_of_bad_length env repoURL token d s h
  refine ⟨hf, by rw [hf], ?_⟩
  simp [iteration, hf]

/-- Witness for C5: scenario S2, the URL `https://github.com/badurl`. -/
theorem bad_segment_count_changes_nothing_witness :
    (Split (TrimPrefix "https://github.com/badurl" "https://github.com/") '/').length ≠ 2 ∧
      iteration (Env.answering twoIssues) "t" "https://github.com/badurl" (48 * Hour)
        (State.fresh noFaults) = some (State.fresh noFaults) :=
  ⟨by decide,
    (bad_segment_count_changes_nothing (Env.answering twoIssues)
      "https://github.com/badurl" "t" (48 * Hour) (State.fresh noFaults) (by decide)).2.2⟩

/-- C6 (the code departs from it): when the API returns an issue whose body pointer is
nil, `fetchGitHubIssues` does not drop the issue and return the others; the dereference
panics, and the scheduler iteration does not complete. -/
theorem fetch_panics_on_absent_field :
    (fetchGitHubIssues
        (Env.answering [⟨some 1, some "a", some "x"⟩, ⟨some 2, some "b", none⟩])
        "https://github.com/example/repo" "t" (48 * Hour) (State.fresh noFaults)).1 =
        .panic "runtime error: invalid memory address or nil pointer dereference" ∧
      iteration
        (Env.answering [⟨some 1, some "a", some "x"⟩, ⟨some 2, some "b", none⟩])
        "t" "https://github.com/example/repo" (48 * Hour) (State.fresh noFaults) = none := by
  constructor <;> rfl

end GitHub

end Collector

namespace Collector

theorem Exec_fault {ρ : Type} (db : DB ρ) (stmt : Stmt ρ) (e : String)
    (h : db.faults db.attempted.length = some e) :
    db.Exec stmt = (some (.db e), { db with attempted := db.attempted ++ [stmt] }) := by
  simp [DB.Exec, h]

theorem Exec_create {ρ : Type} (db : DB ρ) (h : db.faults db.attempted.length = none) :
    db.Exec .createTable =
      (none, { db with attempted := db.attempted ++ [.createTable], tableExists := true }) := by
  simp [DB.Exec, h]

theorem Exec_insert {ρ : Type} (db : DB ρ) (r : ρ)
    (h : db.faults db.attempted.length = none) (ht : db.tableExists = true) :
    db.Exec (.insert r) =
      (none, { db with attempted := db.attempted ++ [.insert r], rows := db.rows ++ [r] }) := by
  simp [DB.Exec, h, ht]

theorem insertLoop_first_fault {ρ : Type} (batch : List ρ) (db : DB ρ) (k : Nat) (e : String)
    (ht : db.tableExists = true) (hk : k < batch.length)
    (hok : ∀ i, i < k → db.faults (db.attempted.length + i) = none)
    (hbad : db.faults (db.attempted.length + k) = some e) :
    insertLoop batch db =
      (some (.db e),
        { db with
          rows := db.rows ++ batch.take k
          attempted := db.attempted ++ (batch.take (k + 1)).map .insert }) := by
  induction batch generalizing db k with
  | nil => simp at hk
  | cons r rest ih =>
    cases k with
    | zero =>
      have h0 : db.faults db.attempted.length = some e := by simpa using hbad
      simp [insertLoop, Exec_fault db _ e h0]
    | succ k =>
      have h0 : db.faults db.attempted.length = none := by simpa using hok 0 (Nat.succ_pos k)
      rw [insertLoop, Exec_insert db r h0 ht]
      have key := ih { db with attempted := db.attempted ++ [.insert r], rows := db.rows ++ [r] }
        k ht (by simpa using hk)
        (by
          intro i hi
          have := hok (i + 1) (by omega)
          simpa [Nat.add_assoc, Nat.add_comm 1 i] using this)
        (by simpa [Nat.add_assoc, Nat.add_comm 1 k] using hbad)
      simpa using key

theorem insertLoop_no_fault {ρ : Type} (batch : List ρ) (db : DB ρ)
    (ht : db.tableExists = true)
    (hok : ∀ i, i < batch.length → db.faults (db.attempted.length + i) = none) :
    insertLoop batch db =
      (none,
        { db with
          rows := db.rows ++ batch
          attempted := db.attempted ++ batch.map .insert }) := by
  induction batch generalizing db with
  | nil => simp [insertLoop]
  | cons r rest ih =>
    have h0 : db.faults db.attempted.length = none := by simpa using hok 0 (by simp)
    rw [insertLoop, Exec_insert db r h0 ht]
    have key := ih { db with attempted := db.attempted ++ [.insert r], rows := db.rows ++ [r] }
      ht (by
        intro i hi
        have := hok (i + 1) (by simpa using hi)
        simpa [Nat.add_assoc, Nat.add_comm 1 i] using this)
    simpa using key

end Collector

namespace Collector

/-! ### Persistence -/

/-- C8: for both save operations, when table creation succeeds and the first failing
insert is the one for the record at index `k`, the operation returns that insert's error,
the store has gained exactly the first `k` records of the batch in production order, and
the statements attempted are the table creation followed by the inserts for the records
at indices `0..k` only: no insert is attempted after index `k`. -/
theorem save_stops_at_first_failing_insert :
    (∀ (issues : List GitHub.GitHubIssue) (repository : String) (s : GitHub.State)
        (k : Nat) (e : String),
        s.db.faults s.db.attempted.length = none →
        k < issues.length →
        (∀ i, i < k → s.db.faults (s.db.attempted.length + 1 + i) = none) →
        s.db.faults (s.db.attempted.length + 1 + k) = some e →
        (GitHub.saveGitHubIssuesToDatabase issues repository s).1 = some (.db e) ∧
          (GitHub.saveGitHubIssuesToDatabase issues repository s).2.db.rows =
            s.db.rows ++ issues.take k ∧
          (GitHub.saveGitHubIssuesToDatabase issues repository s).2.db.attempted =
            s.db.attempted ++ .createTable :: (issues.take (k + 1)).map .insert) ∧
    (∀ (env : StackOverflow.Env) (data : StackOverflow.StackOverflowResponse)
        (s : StackOverflow.State) (k : Nat) (e : String),
        env.sqlOpen = none →
        s.db.faults s.db.attempted.length = none →
        k < data.Items.length →
        (∀ i, i < k → s.db.faults (s.db.attempted.length + 1 + i) = none) →
        s.db.faults (s.db.attempted.length + 1 + k) = some e →
        (StackOverflow.saveToDatabase env data s).1 = some (.db e) ∧
          (StackOverflow.saveToDatabase env data s).2.db.rows =
            s.db.rows ++ data.Items.take k ∧
          (StackOverflow.saveToDatabase env data s).2.db.attempted =
            s.db.attempted ++ .createTable :: (data.Items.take (k + 1)).map .insert) := by
  constructor
  · intro issues repository s k e hc hk hok hbad
    have hloop := insertLoop_first_fault issues
      { s.db with attempted := s.db.attempted ++ [.createTable], tableExists := true } k e rfl hk
      (by intro i hi; simpa using hok i hi) (by simpa using hbad)
    simp [GitHub.saveGitHubIssuesToDatabase, Exec_create s.db hc, hloop]
  · intro env data s k e ho hc hk hok hbad
    have hloop := insertLoop_first_fault data.Items
      { s.db with attempted := s.db.attempted ++ [.createTable], tableExists := true } k e rfl hk
      (by intro i hi; simpa using hok i hi) (by simpa using hbad)
    simp [StackOverflow.saveToDatabase, ho, Exec_create s.db hc, hloop]

/-- Witness for C8: scenario S6, a batch of three whose second insert fails (the third
statement the server receives); exactly the first record is stored. -/
theorem save_stops_at_first_failing_insert_witness :
    ((GitHub.saveGitHubIssuesToDatabase GitHub.threeRecords "r"
          (GitHub.State.fresh (faultAt 2 "insert failed"))).1 = some (.db "insert failed") ∧
      (GitHub.saveGitHubIssuesToDatabase GitHub.threeRecords "r"
          (GitHub.State.fresh (faultAt 2 "insert failed"))).2.db.rows = [⟨1, "a", "x"⟩] ∧
      (GitHub.saveGitHubIssuesToDatabase GitHub.threeRecords "r"
          (GitHub.State.fresh (faultAt 2 "insert failed"))).2.db.attempted =
        [.createTable, .insert ⟨1, "a", "x"⟩, .insert ⟨2, "b", ""⟩]) ∧
    ((StackOverflow.saveToDatabase StackOverflow.Env.offline ⟨StackOverflow.threeItems⟩
          (StackOverflow.State.fresh (faultAt 2 "insert failed"))).1 =
        some (.db "insert failed") ∧
      (StackOverflow.saveToDatabase StackOverflow.Env.offline ⟨StackOverflow.threeItems⟩
          (StackOverflow.State.fresh (faultAt 2 "insert failed"))).2.db.rows =
        [⟨42, "T", "E", "A"⟩] ∧
      (StackOverflow.saveToDatabase StackOverflow.Env.offline ⟨StackOverflow.threeItems⟩
          (StackOverflow.State.fresh (faultAt 2 "insert failed"))).2.db.attempted =
        [.createTable, .insert ⟨42, "T", "E", "A"⟩, .insert ⟨43, "U", "F", ""⟩]) :=
  ⟨save_stops_at_first_failing_insert.1 GitHub.threeRecords "r"
      (GitHub.State.fresh (faultAt 2 "insert failed")) 1 "insert failed"
      (by decide) (by decide)
      (by intro i hi; obtain rfl : i = 0 := by omega
          decide)
      (by decide),
    save_stops_at_first_failing_insert.2 StackOverflow.Env.offline ⟨StackOverflow.threeItems⟩
      (StackOverflow.State.fresh (faultAt 2 "insert failed")) 1 "insert failed"
      rfl (by decide) (by decide)
      (by intro i hi; obtain rfl : i = 0 := by omega
          decide)
      (by decide)⟩

end Collector

namespace Collector

/-! ### Metrics of the GitHub collector -/

theorem fetch_keeps_metrics (env : GitHub.Env) (repoURL token : String) (d : Duration)
    (s : GitHub.State) :
    (GitHub.fetchGitHubIssues env repoURL token d s).2.metrics = s.metrics ∧
      (GitHub.fetchGitHubIssues env repoURL token d s).2.db = s.db := by
  unfold GitHub.fetchGitHubIssues
  by_cases h : (Split (TrimPrefix repoURL "https://github.com/") '/').length = 2
  · simp only [h, ne_eq, not_true_eq_false, if_false]
    split <;> simp
  · simp [h]

theorem save_ok_metrics (issues : List GitHub.GitHubIssue) (repository : String)
    (s : GitHub.State) (h : (GitHub.saveGitHubIssuesToDatabase issues repository s).1 = none) :
    (GitHub.saveGitHubIssuesToDatabase issues repository s).2.metrics =
      { s.metrics with
        apiCalls := counterInc s.metrics.apiCalls repository
        dataCollected := counterAdd s.metrics.dataCollected repository (issues.length : ℚ) } := by
  unfold GitHub.saveGitHubIssuesToDatabase at h ⊢
  rcases hc : s.db.Exec .createTable with ⟨_ | e, db1⟩
  · rw [hc] at h
    simp only at h ⊢
    rcases hl : insertLoop issues db1 with ⟨_ | e, db2⟩
    · simp
    · rw [hl] at h
      simp at h
  · rw [hc] at h
    simp at h

theorem save_err_metrics (issues : List GitHub.GitHubIssue) (repository : String)
    (s : GitHub.State) (e : Err)
    (h : (GitHub.saveGitHubIssuesToDatabase issues repository s).1 = some e) :
    (GitHub.saveGitHubIssuesToDatabase issues repository s).2.metrics = s.metrics := by
  unfold GitHub.saveGitHubIssuesToDatabase at h ⊢
  rcases hc : s.db.Exec .createTable with ⟨_ | e1, db1⟩
  · rw [hc] at h
    simp only at h ⊢
    rcases hl : insertLoop issues db1 with ⟨_ | e2, db2⟩
    · rw [hl] at h
      simp at h
    · simp
  · simp

theorem iteration_of_fetch_ok (env : GitHub.Env) (token githubURL : String) (d : Duration)
    (s s1 : GitHub.State) (issues : List GitHub.GitHubIssue)
    (h : GitHub.fetchGitHubIssues env githubURL token d s = (.ok issues, s1)) :
    ∃ s2, GitHub.iteration env token githubURL d s = some s2 ∧
      s2.metrics.apiCalls =
        (GitHub.saveGitHubIssuesToDatabase issues githubURL s1).2.metrics.apiCalls ∧
      s2.metrics.dataCollected =
        (GitHub.saveGitHubIssuesToDatabase issues githubURL s1).2.metrics.dataCollected ∧
      s2.metrics.apiCallsPerSecond githubURL =
        fdiv (s2.metrics.apiCalls githubURL) (Seconds d) ∧
      s2.metrics.dataCollectedPerSecond githubURL =
        fdiv (s2.metrics.dataCollected githubURL) (Seconds d) := by
  simp only [GitHub.iteration, h]
  exact ⟨_, rfl, rfl, rfl, by simp [gaugeSet], by simp [gaugeSet]⟩

end Collector

namespace Collector

theorem fdiv_of_ne_zero (a b : ℚ) (h : b ≠ 0) : fdiv a b = .num (a / b) := by
  simp [fdiv, h]

theorem iteration_counts (env : GitHub.Env) (token githubURL : String) (d : Duration)
    (s s1 : GitHub.State) (issues : List GitHub.GitHubIssue)
    (hf : GitHub.fetchGitHubIssues env githubURL token d s = (.ok issues, s1))
    (hsave : (GitHub.saveGitHubIssuesToDatabase issues githubURL s1).1 = none) :
    ∃ s2, GitHub.iteration env token githubURL d s = some s2 ∧
      s2.metrics.apiCalls githubURL = s.metrics.apiCalls githubURL + 1 ∧
      s2.metrics.dataCollected githubURL =
        s.metrics.dataCollected githubURL + (issues.length : ℚ) ∧
      s2.metrics.apiCallsPerSecond githubURL =
        fdiv (s.metrics.apiCalls githubURL + 1) (Seconds d) ∧
      s2.metrics.dataCollectedPerSecond githubURL =
        fdiv (s.metrics.dataCollected githubURL + (issues.length : ℚ)) (Seconds d) := by
  obtain ⟨s2, hit, hc, hd, hg1, hg2⟩ := iteration_of_fetch_ok env token githubURL d s s1 issues hf
  have hm : s1.metrics = s.metrics := by
    have := (fetch_keeps_metrics env githubURL token d s).1
    rw [hf] at this
    exact this
  have hcalls : s2.metrics.apiCalls githubURL = s.metrics.apiCalls githubURL + 1 := by
    rw [hc, save_ok_metrics issues githubURL s1 hsave, hm]
    simp [counterInc, counterAdd]
  have hdata : s2.metrics.dataCollected githubURL =
      s.metrics.dataCollected githubURL + (issues.length : ℚ) := by
    rw [hd, save_ok_metrics issues githubURL s1 hsave, hm]
    simp [counterAdd]
  exact ⟨s2, hit, hcalls, hdata, by rw [hg1, hcalls], by rw [hg2, hdata]⟩

theorem iteration_of_success (env : GitHub.Env) (token githubURL : String) (d : Duration)
    (s : GitHub.State) (h : GitHub.iterationSucceeds env token githubURL d s = true) :
    ∃ s2, GitHub.iteration env token githubURL d s = some s2 ∧
      s2.metrics.apiCalls githubURL = s.metrics.apiCalls githubURL + 1 ∧
      s2.metrics.apiCallsPerSecond githubURL =
        fdiv (s.metrics.apiCalls githubURL + 1) (Seconds d) := by
  unfold GitHub.iterationSucceeds at h
  rcases hf : GitHub.fetchGitHubIssues env githubURL token d s with ⟨res, s1⟩
  rw [hf] at h
  cases res with
  | err e => simp at h
  | panic m => simp at h
  | ok issues =>
    have hsave : (GitHub.saveGitHubIssuesToDatabase issues githubURL s1).1 = none := by
      simpa using h
    obtain ⟨s2, hit, hc, _, hg, _⟩ := iteration_of_fetch_ok env token githubURL d s s1 issues hf
    have hm : s1.metrics = s.metrics := by
      have := (fetch_keeps_metrics env githubURL token d s).1
      rw [hf] at this
      exact this
    have hcalls : s2.metrics.apiCalls githubURL = s.metrics.apiCalls githubURL + 1 := by
      rw [hc, save_ok_metrics issues githubURL s1 hsave, hm]
      simp [counterInc, counterAdd]
    exact ⟨s2, hit, hcalls, by rw [hg, hcalls]⟩

namespace GitHub

/-- C2: after an iteration of the GitHub scheduler whose fetch succeeds, for a window of
positive length, the calls gauge of the repository holds the current value of the calls
counter divided by the window in seconds, and the data gauge the current value of the data
counter divided by the window in seconds; each iteration overwrites the gauge, so that
for one repository whose counter starts at zero and windows of 3600 s and 7200 s, both
iterations succeeding, the calls counter ends at 2 and the calls gauge at 2/7200. -/
theorem github_rate_gauges :
    (∀ (env : Env) (token githubURL : String) (d : Duration) (s s1 : State)
        (issues : List GitHubIssue),
        0 < Seconds d →
        fetchGitHubIssues env githubURL token d s = (.ok issues, s1) →
        ∃ s2, iteration env token githubURL d s = some s2 ∧
          s2.metrics.apiCallsPerSecond githubURL =
            .num (s2.metrics.apiCalls githubURL / Seconds d) ∧
          s2.metrics.dataCollectedPerSecond githubURL =
            .num (s2.metrics.dataCollected githubURL / Seconds d)) ∧
    (∀ (env : Env) (token githubURL : String) (s : State),
        s.metrics.apiCalls githubURL = 0 →
        allSucceed env token githubURL [3600 * Second, 7200 * Second] s = true →
        ∃ s2, runDurations env token githubURL [3600 * Second, 7200 * Second] s = some s2 ∧
          s2.metrics.apiCalls githubURL = 2 ∧
          s2.metrics.apiCallsPerSecond githubURL = .num (2 / 7200)) := by
  constructor
  · intro env token githubURL d s s1 issues hd hf
    obtain ⟨s2, hit, _, _, hg1, hg2⟩ := iteration_of_fetch_ok env token githubURL d s s1 issues hf
    exact ⟨s2, hit, by rw [hg1, fdiv_of_ne_zero _ _ hd.ne.symm],
      by rw [hg2, fdiv_of_ne_zero _ _ hd.ne.symm]⟩
  · intro env token githubURL s h0 hall
    simp only [allSucceed, Bool.and_eq_true] at hall
    obtain ⟨h1, hrest⟩ := hall
    obtain ⟨sA, hitA, hcA, _⟩ := iteration_of_success env token githubURL _ s h1
    rw [hitA] at hrest
    simp only [Bool.and_eq_true] at hrest
    obtain ⟨sB, hitB, hcB, hgB⟩ := iteration_of_success env token githubURL _ sA hrest.1
    refine ⟨sB, by simp [runDurations, hitA, hitB], ?_, ?_⟩
    · rw [hcB, hcA, h0]
      norm_num
    · rw [hgB, hcA, h0, fdiv_of_ne_zero _ _ (by norm_num [Seconds, Second])]
      norm_num [Seconds, Second]

/-- Witness for C2: scenarios S1 and S5, repository `https://github.com/example/repo`
answering two issues, a database without faults. -/
theorem github_rate_gauges_witness :
    (∃ s2, iteration (Env.answering twoIssues) "t" "https://github.com/example/repo"
          (48 * Hour) (State.fresh noFaults) = some s2 ∧
        s2.metrics.apiCallsPerSecond "https://github.com/example/repo" =
          .num (s2.metrics.apiCalls "https://github.com/example/repo" / Seconds (48 * Hour)) ∧
        s2.metrics.dataCollectedPerSecond "https://github.com/example/repo" =
          .num (s2.metrics.dataCollected "https://github.com/example/repo" /
            Seconds (48 * Hour))) ∧
    (∃ s2, runDurations (Env.answering twoIssues) "t" "https://github.com/example/repo"
          [3600 * Second, 7200 * Second] (State.fresh noFaults) = some s2 ∧
        s2.metrics.apiCalls "https://github.com/example/repo" = 2 ∧
        s2.metrics.apiCallsPerSecond "https://github.com/example/repo" = .num (2 / 7200)) :=
  ⟨github_rate_gauges.1 (Env.answering twoIssues) "t" "https://github.com/example/repo"
      (48 * Hour) (State.fresh noFaults)
      (fetchGitHubIssues (Env.answering twoIssues) "https://github.com/example/repo" "t"
        (48 * Hour) (State.fresh noFaults)).2
      twoRecords (by norm_num [Seconds, Hour, Second]) rfl,
    github_rate_gauges.2 (Env.answering twoIssues) "t" "https://github.com/example/repo"
      (State.fresh noFaults) rfl (by decide)⟩

/-- C1 (the code departs from it): the fetch for `https://github.com/example/repo`
succeeds and returns two issues, but the counters are only touched at the end of a save
that returned no error. When table creation fails, or when the second insert fails, the
iteration ends with both counters of the repository still at 0 instead of 1 and 2. -/
theorem github_counters_skipped_when_save_fails :
    (fetchGitHubIssues (Env.answering twoIssues) "https://github.com/example/repo" "t"
        (48 * Hour) (State.fresh (faultAt 0 "create failed"))).1 = .ok twoRecords ∧
    (∃ s2, iteration (Env.answering twoIssues) "t" "https://github.com/example/repo"
          (48 * Hour) (State.fresh (faultAt 0 "create failed")) = some s2 ∧
        s2.metrics.apiCalls "https://github.com/example/repo" = 0 ∧
        s2.metrics.dataCollected "https://github.com/example/repo" = 0 ∧
        s2.db.rows = []) ∧
    (∃ s2, iteration (Env.answering twoIssues) "t" "https://github.com/example/repo"
          (48 * Hour) (State.fresh (faultAt 2 "insert failed")) = some s2 ∧
        s2.metrics.apiCalls "https://github.com/example/repo" = 0 ∧
        s2.metrics.dataCollected "https://github.com/example/repo" = 0 ∧
        s2.db.rows = [⟨1, "a", "x"⟩]) :=
  ⟨rfl, ⟨_, rfl, rfl, rfl, rfl⟩, ⟨_, rfl, rfl, rfl, rfl⟩⟩

end GitHub

end Collector

namespace Collector

namespace GitHub

/-- C4, counterexample: the remainders of `https://github.com/owner/` and of
`https://github.com//repo` split into two segments of which one is empty, and
`fetchGitHubIssues` does not reject them: it sends the list-issues request with the empty
name and returns the issues the API answers. -/
theorem empty_segment_url_is_accepted :
    Split (TrimPrefix "https://github.com/owner/" "https://github.com/") '/' = ["owner", ""] ∧
    fetchGitHubIssues (Env.answering twoIssues) "https://github.com/owner/" "t" (48 * Hour)
        (State.fresh noFaults) =
      (.ok twoRecords,
        { State.fresh noFaults with requests := [⟨"t", "owner", "", -172800000000000⟩] }) ∧
    Split (TrimPrefix "https://github.com//repo" "https://github.com/") '/' = ["", "repo"] ∧
    fetchGitHubIssues (Env.answering twoIssues) "https://github.com//repo" "t" (48 * Hour)
        (State.fresh noFaults) =
      (.ok twoRecords,
        { State.fresh noFaults with requests := [⟨"t", "", "repo", -172800000000000⟩] }) :=
  ⟨by decide, rfl, by decide, rfl⟩

/-- C4, amended: `fetchGitHubIssues` returns the invalid-repository-URL error exactly when
the remainder of the URL after the prefix `https://github.com/` does not split on `/` into
two segments. The segments are not required to be non-empty: whenever there are two, the
list-issues request is sent with the first as owner and the second as repository. -/
theorem invalid_url_iff_segment_count (env : Env) (repoURL token : String) (d : Duration)
    (s : State) :
    ((∃ msg, (fetchGitHubIssues env repoURL token d s).1 = .err (.invalidRepoURL msg)) ↔
      (Split (TrimPrefix repoURL "https://github.com/") '/').length ≠ 2) ∧
    ((Split (TrimPrefix repoURL "https://github.com/") '/').length = 2 →
      (fetchGitHubIssues env repoURL token d s).2.requests =
        s.requests ++
          [⟨token, (Split (TrimPrefix repoURL "https://github.com/") '/').getD 0 "",
            (Split (TrimPrefix repoURL "https://github.com/") '/').getD 1 "",
            env.now s.requests.length + wrapInt64 (-d)⟩]) := by
  by_cases h : (Split (TrimPrefix repoURL "https://github.com/") '/').length = 2
  · have hconv := convertLoop_ne_err
    constructor
    · simp only [h, ne_eq, not_true_eq_false, iff_false, not_exists]
      intro msg
      unfold fetchGitHubIssues
      simp only [h, ne_eq, not_true_eq_false, if_false]
      split
      · simp
      · exact hconv _ _ _
    · intro _
      unfold fetchGitHubIssues
      simp only [h, ne_eq, not_true_eq_false, if_false]
      split <;> rfl
  · refine ⟨⟨fun _ => h, fun _ => ⟨"invalid GitHub repository URL: " ++ repoURL, ?_⟩⟩,
      fun h2 => absurd h2 h⟩
    rw [fetch_of_bad_length env repoURL token d s h]

/-- Witness for C4, amended: `https://github.com/owner/` has two segments and the request
goes out with an empty repository name. -/
theorem invalid_url_iff_segment_count_witness :
    (Split (TrimPrefix "https://github.com/owner/" "https://github.com/") '/').length = 2 ∧
    (fetchGitHubIssues (Env.answering twoIssues) "https://github.com/owner/" "t" (48 * Hour)
        (State.fresh noFaults)).2.requests =
      [] ++ [⟨"t", "owner", "", -172800000000000⟩] :=
  ⟨by decide,
    (invalid_url_iff_segment_count (Env.answering twoIssues) "https://github.com/owner/" "t"
      (48 * Hour) (State.fresh noFaults)).2 (by decide)⟩

end GitHub

end Collector

namespace Collector

/-! ### Stack Overflow collector -/

theorem fetchAnswerBody_log (env : StackOverflow.Env) (url : String) (requests : List String) :
    (StackOverflow.fetchAnswerBody env url requests).2 = requests ++ [url] := by
  unfold StackOverflow.fetchAnswerBody
  split
  · rfl
  · split
    · rfl
    · split <;> rfl

theorem eachLoop_spec (env : StackOverflow.Env) (summaries : List StackOverflow.Summary)
    (items : List StackOverflow.Item) (requests : List String) :
    (StackOverflow.eachLoop env summaries items requests).2 =
        requests ++ summaries.map StackOverflow.answerURL ∧
      ∃ added, (StackOverflow.eachLoop env summaries items requests).1 = items ++ added ∧
        added.length = summaries.length ∧
        ∀ i sm, summaries[i]? = some sm →
          ∃ item, added[i]? = some item ∧
            item.QuestionID = StackOverflow.questionID sm ∧
            item.Title = sm.hyperlinkText ∧
            item.QuestionBody = sm.excerptText ∧
            (∀ e, (StackOverflow.fetchAnswerBody env (StackOverflow.answerURL sm)
                (requests ++ (summaries.take i).map StackOverflow.answerURL)).1 = .err e →
              item.AnswerBody = "") ∧
            (∀ b, (StackOverflow.fetchAnswerBody env (StackOverflow.answerURL sm)
                (requests ++ (summaries.take i).map StackOverflow.answerURL)).1 = .ok b →
              item.AnswerBody = b) := by
  induction summaries generalizing items requests with
  | nil => exact ⟨by simp [StackOverflow.eachLoop], [], by simp [StackOverflow.eachLoop]⟩
  | cons s rest ih =>
    obtain ⟨item0, hitem0⟩ : ∃ x : StackOverflow.Item,
        x = ⟨StackOverflow.questionID s, s.hyperlinkText, s.excerptText,
          match (StackOverflow.fetchAnswerBody env (StackOverflow.answerURL s) requests).1 with
          | .ok body => body
          | .err _ => ""⟩ := ⟨_, rfl⟩
    have hstep : StackOverflow.eachLoop env (s :: rest) items requests =
        StackOverflow.eachLoop env rest (items ++ [item0])
          (requests ++ [StackOverflow.answerURL s]) := by
      simp only [StackOverflow.eachLoop, fetchAnswerBody_log, hitem0]
    obtain ⟨hlog, added, hitems, hlen, hpt⟩ :=
      ih (items ++ [item0]) (requests ++ [StackOverflow.answerURL s])
    rw [hstep]
    refine ⟨by simp [hlog], item0 :: added, by simp [hitems], by simp [hlen], ?_⟩
    intro i sm hsm
    cases i with
    | zero =>
      simp only [List.getElem?_cons_zero, Option.some.injEq] at hsm
      subst hsm
      refine ⟨item0, by simp, by simp [hitem0], by simp [hitem0], by simp [hitem0], ?_, ?_⟩
      · intro e he
        simp only [List.take_zero, List.map_nil, List.append_nil] at he
        simp [hitem0, he]
      · intro b hb
        simp only [List.take_zero, List.map_nil, List.append_nil] at hb
        simp [hitem0, hb]
    | succ i =>
      simp only [List.getElem?_cons_succ] at hsm
      obtain ⟨item, hget, hrest⟩ := hpt i sm hsm
      refine ⟨item, by simpa using hget, ?_⟩
      simpa [List.append_assoc] using hrest

theorem fetch_ok_spec (env : StackOverflow.Env) (url queryLabel : String) (d : Duration)
    (s : StackOverflow.State) (resp : StackOverflow.Response) (body : String)
    (doc : StackOverflow.Document)
    (hget : env.httpGet s.requests.length
      (StackOverflow.withStartDate url (env.now s.requests.length + wrapInt64 (-d))) = .ok resp)
    (hbody : resp.body = .ok body) (hparse : env.parseHTML body = .ok doc) :
    StackOverflow.fetchStackOverflowData env url queryLabel d s =
      (.ok ⟨(StackOverflow.eachLoop env doc.questionSummaries []
            (s.requests ++
              [StackOverflow.withStartDate url (env.now s.requests.length + wrapInt64 (-d))])).1⟩,
        { s with
          requests := (StackOverflow.eachLoop env doc.questionSummaries []
            (s.requests ++
              [StackOverflow.withStartDate url (env.now s.requests.length + wrapInt64 (-d))])).2
          metrics := { s.metrics with
            apiCalls := counterInc s.metrics.apiCalls queryLabel
            dataCollected := counterAdd s.metrics.dataCollected queryLabel
              ((StackOverflow.eachLoop env doc.questionSummaries []
                (s.requests ++
                  [StackOverflow.withStartDate url
                    (env.now s.requests.length + wrapInt64 (-d))])).1.length : ℚ) } }) := by
  simp [StackOverflow.fetchStackOverflowData, hget, hbody, hparse]

end Collector

namespace Collector

theorem saveToDatabase_keeps_metrics (env : StackOverflow.Env)
    (data : StackOverflow.StackOverflowResponse) (s : StackOverflow.State) :
    (StackOverflow.saveToDatabase env data s).2.metrics = s.metrics := by
  unfold StackOverflow.saveToDatabase
  split
  · rfl
  · split
    · rfl
    · split <;> rfl

theorem saveToDatabase_no_fault (env : StackOverflow.Env)
    (data : StackOverflow.StackOverflowResponse) (s : StackOverflow.State)
    (hopen : env.sqlOpen = none)
    (hok : ∀ i, i ≤ data.Items.length → s.db.faults (s.db.attempted.length + i) = none) :
    (StackOverflow.saveToDatabase env data s).2.db.rows = s.db.rows ++ data.Items := by
  have hc := Exec_create s.db (by simpa using hok 0 (Nat.zero_le _))
  have hloop := insertLoop_no_fault data.Items
    { s.db with attempted := s.db.attempted ++ [.createTable], tableExists := true } rfl
    (by
      intro i hi
      have := hok (i + 1) (by omega)
      simpa [Nat.add_assoc, Nat.add_comm 1 i] using this)
  simp [StackOverflow.saveToDatabase, hopen, hc, hloop]

namespace StackOverflow

/-- C9: when the top-level request, the reading of its body and the parse succeed,
`fetchStackOverflowData` returns one record per question summary, in document order; the
record at position `i` carries the question id, title and excerpt extracted from the
`i`-th summary, and when the follow-up request for that summary (sent after the search
request and the follow-ups of the summaries before it) fails, its answer body is the
empty string. -/
theorem fetch_emits_one_record_per_summary (env : Env) (url queryLabel : String)
    (d : Duration) (s : State) (resp : Response) (body : String) (doc : Document)
    (hget : env.httpGet s.requests.length
      (withStartDate url (env.now s.requests.length + wrapInt64 (-d))) = .ok resp)
    (hbody : resp.body = .ok body) (hparse : env.parseHTML body = .ok doc) :
    ∃ items, (fetchStackOverflowData env url queryLabel d s).1 = .ok ⟨items⟩ ∧
      items.length = doc.questionSummaries.length ∧
      ∀ (i : Nat) (sm : Summary), doc.questionSummaries[i]? = some sm →
        ∃ item : Item, items[i]? = some item ∧
          item.QuestionID = questionID sm ∧
          item.Title = sm.hyperlinkText ∧
          item.QuestionBody = sm.excerptText ∧
          (∀ e, (fetchAnswerBody env (answerURL sm)
              (s.requests ++ [withStartDate url (env.now s.requests.length + wrapInt64 (-d))] ++
                (doc.questionSummaries.take i).map answerURL)).1 = .err e →
            item.AnswerBody = "") := by
  obtain ⟨_, added, hitems, hlen, hpt⟩ := eachLoop_spec env doc.questionSummaries []
    (s.requests ++ [withStartDate url (env.now s.requests.length + wrapInt64 (-d))])
  rw [List.nil_append] at hitems
  refine ⟨added, ?_, hlen, ?_⟩
  · rw [fetch_ok_spec env url queryLabel d s resp body doc hget hbody hparse, hitems]
  · intro i sm hsm
    obtain ⟨item, h1, h2, h3, h4, h5, _⟩ := hpt i sm hsm
    exact ⟨item, h1, h2, h3, h4, h5⟩

/-- Witness for C9: scenario S4, one summary with `href="/questions/42"` whose follow-up
request times out; the batch is the single record `(42, "T", "E", "")`. -/
theorem fetch_emits_one_record_per_summary_witness :
    (fetchStackOverflowData (Env.scripted searchPage (.error "timeout") questionPage)
        topic.URL topic.Query (7 * 24 * Hour) (State.fresh noFaults)).1 =
      .ok ⟨[⟨42, "T", "E", ""⟩]⟩ ∧
    ∃ items, (fetchStackOverflowData (Env.scripted searchPage (.error "timeout") questionPage)
        topic.URL topic.Query (7 * 24 * Hour) (State.fresh noFaults)).1 = .ok ⟨items⟩ ∧
      items.length = searchPage.questionSummaries.length ∧
      ∀ (i : Nat) (sm : Summary), searchPage.questionSummaries[i]? = some sm →
        ∃ item : Item, items[i]? = some item ∧
          item.QuestionID = questionID sm ∧
          item.Title = sm.hyperlinkText ∧
          item.QuestionBody = sm.excerptText ∧
          (∀ e, (fetchAnswerBody (Env.scripted searchPage (.error "timeout") questionPage)
              (answerURL sm)
              ((State.fresh noFaults).requests ++
                [withStartDate topic.URL
                  ((Env.scripted searchPage (.error "timeout") questionPage).now
                    (State.fresh noFaults).requests.length + wrapInt64 (-(7 * 24 * Hour)))] ++
                (searchPage.questionSummaries.take i).map answerURL)).1 = .err e →
            item.AnswerBody = "") :=
  ⟨by decide,
    fetch_emits_one_record_per_summary (Env.scripted searchPage (.error "timeout") questionPage)
      topic.URL topic.Query (7 * 24 * Hour) (State.fresh noFaults) ⟨.ok "search"⟩ "search"
      searchPage rfl rfl rfl⟩

end StackOverflow

end Collector

namespace Collector

theorem questionID_of_unparsed (sm : StackOverflow.Summary)
    (h : sm.href = none ∨ ∃ href, sm.href = some href ∧ StackOverflow.scanQuestionID href = none) :
    StackOverflow.questionID sm = 0 := by
  rcases h with h | ⟨href, h, hscan⟩
  · simp [StackOverflow.questionID, h]
  · simp [StackOverflow.questionID, h, hscan]

theorem fetchStackOverflowData_keeps_gauges (env : StackOverflow.Env) (url queryLabel : String)
    (d : Duration) (s : StackOverflow.State) :
    (StackOverflow.fetchStackOverflowData env url queryLabel d s).2.metrics.apiCallsPerSecond =
        s.metrics.apiCallsPerSecond ∧
      (StackOverflow.fetchStackOverflowData env url queryLabel d s).2.metrics.dataCollectedPerSecond =
        s.metrics.dataCollectedPerSecond := by
  unfold StackOverflow.fetchStackOverflowData
  simp only
  split
  · exact ⟨rfl, rfl⟩
  · split
    · exact ⟨rfl, rfl⟩
    · split <;> exact ⟨rfl, rfl⟩

theorem so_gauges_of_fetch_ok (env : StackOverflow.Env) (d : Duration)
    (entry : StackOverflow.Entry) (s s1 : StackOverflow.State)
    (data : StackOverflow.StackOverflowResponse)
    (h : StackOverflow.fetchStackOverflowData env entry.URL entry.Query d s = (.ok data, s1)) :
    (StackOverflow.iteration env d entry s).metrics.apiCalls = s1.metrics.apiCalls ∧
      (StackOverflow.iteration env d entry s).metrics.dataCollected = s1.metrics.dataCollected ∧
      (StackOverflow.iteration env d entry s).metrics.apiCallsPerSecond entry.Query =
        (s.metrics.apiCallsPerSecond entry.Query).add 1 ∧
      (StackOverflow.iteration env d entry s).metrics.dataCollectedPerSecond entry.Query =
        (s.metrics.dataCollectedPerSecond entry.Query).add 1 := by
  have hg := fetchStackOverflowData_keeps_gauges env entry.URL entry.Query d s
  rw [h] at hg
  obtain ⟨hg1, hg2⟩ := hg
  simp only at hg1 hg2
  simp only [StackOverflow.iteration, h, saveToDatabase_keeps_metrics]
  refine ⟨trivial, trivial, ?_, ?_⟩
  · simp [gaugeInc, hg1]
  · simp [gaugeInc, hg2]

theorem so_metrics_after_iteration (env : StackOverflow.Env) (d : Duration)
    (entry : StackOverflow.Entry) (s : StackOverflow.State) (resp : StackOverflow.Response)
    (body : String) (doc : StackOverflow.Document)
    (hget : env.httpGet s.requests.length
      (StackOverflow.withStartDate entry.URL (env.now s.requests.length + wrapInt64 (-d))) = .ok resp)
    (hbody : resp.body = .ok body) (hparse : env.parseHTML body = .ok doc) :
    (StackOverflow.iteration env d entry s).metrics.apiCalls entry.Query =
        s.metrics.apiCalls entry.Query + 1 ∧
      (StackOverflow.iteration env d entry s).metrics.dataCollected entry.Query =
        s.metrics.dataCollected entry.Query + (doc.questionSummaries.length : ℚ) ∧
      (StackOverflow.iteration env d entry s).metrics.apiCallsPerSecond entry.Query =
        (s.metrics.apiCallsPerSecond entry.Query).add 1 ∧
      (StackOverflow.iteration env d entry s).metrics.dataCollectedPerSecond entry.Query =
        (s.metrics.dataCollectedPerSecond entry.Query).add 1 := by
  have hf := fetch_ok_spec env entry.URL entry.Query d s resp body doc hget hbody hparse
  obtain ⟨h1, h2, h3, h4⟩ := so_gauges_of_fetch_ok env d entry s _ _ hf
  obtain ⟨_, added, hitems, hlen, _⟩ := eachLoop_spec env doc.questionSummaries []
    (s.requests ++ [StackOverflow.withStartDate entry.URL (env.now s.requests.length + wrapInt64 (-d))])
  refine ⟨?_, ?_, h3, h4⟩
  · rw [h1]
    simp [counterInc, counterAdd]
  · rw [h2]
    simp [counterAdd, hitems, hlen]

namespace StackOverflow

/-- C10, counterexample: a search page whose first summary has no `href` and whose second
has `href="/users/7"`, which does not scan; the iteration stores a row for each, with
question id 0. -/
theorem unparsed_href_row_is_stored :
    scanQuestionID "/users/7" = none ∧
    (iteration (Env.scripted unparsedPage (.error "timeout") questionPage) (7 * 24 * Hour)
        topic (State.fresh noFaults)).db.rows =
      [⟨0, "T", "E", ""⟩, ⟨0, "U", "F", ""⟩] := by
  constructor <;> decide

/-- C10, amended: no summary is skipped. When the search request, the reading of its body
and the parse succeed, `sql.Open` succeeds and the server fails none of the statements of
the save, the iteration appends to the questions table exactly one row per question
summary, in document order, carrying the title and excerpt of the summary and the question
id as extracted; for a summary whose `href` is missing or does not scan as
`/questions/<int>`, that row is stored with question id 0. -/
theorem every_summary_is_stored (env : Env) (d : Duration) (entry : Entry) (s : State)
    (resp : Response) (body : String) (doc : Document)
    (hget : env.httpGet s.requests.length
      (withStartDate entry.URL (env.now s.requests.length + wrapInt64 (-d))) = .ok resp)
    (hbody : resp.body = .ok body) (hparse : env.parseHTML body = .ok doc)
    (hopen : env.sqlOpen = none)
    (hfaults : ∀ i, i ≤ doc.questionSummaries.length →
      s.db.faults (s.db.attempted.length + i) = none) :
    ∃ items, (iteration env d entry s).db.rows = s.db.rows ++ items ∧
      items.length = doc.questionSummaries.length ∧
      ∀ (i : Nat) (sm : Summary), doc.questionSummaries[i]? = some sm →
        ∃ item : Item, items[i]? = some item ∧
          item.Title = sm.hyperlinkText ∧
          item.QuestionBody = sm.excerptText ∧
          item.QuestionID = questionID sm ∧
          ((sm.href = none ∨ ∃ href, sm.href = some href ∧ scanQuestionID href = none) →
            item.QuestionID = 0) := by
  obtain ⟨_, added, hitems, hlen, hpt⟩ := eachLoop_spec env doc.questionSummaries []
    (s.requests ++ [withStartDate entry.URL (env.now s.requests.length + wrapInt64 (-d))])
  rw [List.nil_append] at hitems
  have hf := fetch_ok_spec env entry.URL entry.Query d s resp body doc hget hbody hparse
  rw [hitems] at hf
  refine ⟨added, ?_, hlen, ?_⟩
  · simp only [iteration, hf]
    exact saveToDatabase_no_fault env ⟨added⟩ _ hopen (by simpa [hlen] using hfaults)
  · intro i sm hsm
    obtain ⟨item, h1, h2, h3, h4, _⟩ := hpt i sm hsm
    exact ⟨item, h1, h3, h4, h2, fun hbad => by rw [h2, questionID_of_unparsed sm hbad]⟩

/-- Witness for C10, amended: the page with a missing and an unparseable `href`. -/
theorem every_summary_is_stored_witness :
    ∃ items, (iteration (Env.scripted unparsedPage (.error "timeout") questionPage)
        (7 * 24 * Hour) topic (State.fresh noFaults)).db.rows =
          (State.fresh noFaults).db.rows ++ items ∧
      items.length = unparsedPage.questionSummaries.length ∧
      ∀ (i : Nat) (sm : Summary), unparsedPage.questionSummaries[i]? = some sm →
        ∃ item : Item, items[i]? = some item ∧
          item.Title = sm.hyperlinkText ∧
          item.QuestionBody = sm.excerptText ∧
          item.QuestionID = questionID sm ∧
          ((sm.href = none ∨ ∃ href, sm.href = some href ∧ scanQuestionID href = none) →
            item.QuestionID = 0) :=
  every_summary_is_stored (Env.scripted unparsedPage (.error "timeout") questionPage)
    (7 * 24 * Hour) topic (State.fresh noFaults) ⟨.ok "search"⟩ "search" unparsedPage
    rfl rfl rfl rfl (fun _ _ => rfl)

/-- C3 (the code departs from it): in scenario S3 (one question found, window of 7 days)
the iteration leaves both counters of the query at 1, so both gauges should read
1/604800; the scheduler instead increments each gauge by one, and both read 1. -/
theorem stackoverflow_gauges_are_incremented :
    Seconds (7 * 24 * Hour) = 604800 ∧
    (iteration (Env.scripted searchPage (.ok ⟨.ok "question"⟩) questionPage) (7 * 24 * Hour)
        topic (State.fresh noFaults)).metrics.apiCalls "topic" = 1 ∧
    (iteration (Env.scripted searchPage (.ok ⟨.ok "question"⟩) questionPage) (7 * 24 * Hour)
        topic (State.fresh noFaults)).metrics.dataCollected "topic" = 1 ∧
    (iteration (Env.scripted searchPage (.ok ⟨.ok "question"⟩) questionPage) (7 * 24 * Hour)
        topic (State.fresh noFaults)).metrics.apiCallsPerSecond "topic" = .num 1 ∧
    (iteration (Env.scripted searchPage (.ok ⟨.ok "question"⟩) questionPage) (7 * 24 * Hour)
        topic (State.fresh noFaults)).metrics.dataCollectedPerSecond "topic" = .num 1 ∧
    GaugeValue.num 1 ≠ fdiv 1 604800 := by
  obtain ⟨h1, h2, h3, h4⟩ := so_metrics_after_iteration
    (Env.scripted searchPage (.ok ⟨.ok "question"⟩) questionPage) (7 * 24 * Hour) topic
    (State.fresh noFaults) ⟨.ok "search"⟩ "search" searchPage rfl rfl rfl
  refine ⟨by norm_num [Seconds, Hour, Second], ?_, ?_, ?_, ?_, by norm_num [fdiv]⟩
  · rw [show ("topic" : String) = topic.Query from rfl, h1]
    norm_num [State.fresh, Metrics.fresh]
  · rw [show ("topic" : String) = topic.Query from rfl, h2]
    norm_num [State.fresh, Metrics.fresh, searchPage]
  · rw [show ("topic" : String) = topic.Query from rfl, h3]
    norm_num [State.fresh, Metrics.fresh, GaugeValue.add]
  · rw [show ("topic" : String) = topic.Query from rfl, h4]
    norm_num [State.fresh, Metrics.fresh, GaugeValue.add]

end StackOverflow

end Collector

namespace Collector

/-! ### Windows that are not positive -/

theorem Seconds_zero : Seconds 0 = 0 := by
  simp [Seconds]

theorem Seconds_neg_of_neg (d : Duration) (h : d < 0) : Seconds d < 0 := by
  have hd : ((d : Int) : ℚ) < 0 := by exact_mod_cast h
  unfold Seconds
  exact div_neg_of_neg_of_pos hd (by norm_num)

theorem fdiv_nonpositive_window (c : ℚ) (d : Duration) (h : d ≤ 0) :
    fdiv c (Seconds d) =
      if d < 0 then .num (c / Seconds d)
      else if 0 < c then .posInf
      else if c < 0 then .negInf
      else .nan := by
  by_cases hd : d < 0
  · rw [if_pos hd, fdiv_of_ne_zero _ _ (Seconds_neg_of_neg d hd).ne]
  · have h0 : d = 0 := le_antisymm h (not_lt.mp hd)
    subst h0
    simp [fdiv, Seconds_zero]

/-- Examples of the scan of a question link: the number stops at the first character that
is not a digit. -/
theorem scanQuestionID_examples :
    StackOverflow.scanQuestionID "/questions/42" = some 42 ∧
    StackOverflow.scanQuestionID "/questions/42/how-to" = some 42 ∧
    StackOverflow.scanQuestionID "/questions/1_000" = some 1 ∧
    StackOverflow.scanQuestionID "/questions/-7" = some (-7) ∧
    StackOverflow.scanQuestionID "/questions/" = none ∧
    StackOverflow.scanQuestionID "/questions/99999999999999999999" = none ∧
    StackOverflow.scanQuestionID "/users/7" = none := by
  decide

/-- Negating the least duration wraps to itself; negating 48 hours does not wrap. -/
theorem wrapInt64_examples :
    wrapInt64 (-(-9223372036854775808)) = -9223372036854775808 ∧
    wrapInt64 (-(48 * Hour)) = -172800000000000 := by
  decide

/-- C7, counterexample: the GitHub loop body run with a window of zero does not skip the
rate update: it divides the counters 1 and 2 by zero seconds and both gauges go from 0 to
+Inf; run with a window of minus one hour it sets the calls gauge to -1/3600 and the data
gauge to -2/3600. -/
theorem rate_update_not_skipped :
    (GitHub.State.fresh noFaults).metrics.apiCallsPerSecond "https://github.com/example/repo" =
      .num 0 ∧
    (GitHub.State.fresh noFaults).metrics.dataCollectedPerSecond
        "https://github.com/example/repo" = .num 0 ∧
    (∃ s2, GitHub.iteration (GitHub.Env.answering GitHub.twoIssues) "t"
          "https://github.com/example/repo" 0 (GitHub.State.fresh noFaults) = some s2 ∧
        s2.metrics.apiCallsPerSecond "https://github.com/example/repo" = .posInf ∧
        s2.metrics.dataCollectedPerSecond "https://github.com/example/repo" = .posInf) ∧
    (∃ s2, GitHub.iteration (GitHub.Env.answering GitHub.twoIssues) "t"
          "https://github.com/example/repo" (-Hour) (GitHub.State.fresh noFaults) = some s2 ∧
        s2.metrics.apiCallsPerSecond "https://github.com/example/repo" = .num (-1 / 3600) ∧
        s2.metrics.dataCollectedPerSecond "https://github.com/example/repo" =
          .num (-2 / 3600)) := by
  refine ⟨rfl, rfl, ?_, ?_⟩
  · obtain ⟨s2, hit, _, _, hg1, hg2⟩ := iteration_counts
      (GitHub.Env.answering GitHub.twoIssues) "t" "https://github.com/example/repo" 0
      (GitHub.State.fresh noFaults)
      (GitHub.fetchGitHubIssues (GitHub.Env.answering GitHub.twoIssues)
        "https://github.com/example/repo" "t" 0 (GitHub.State.fresh noFaults)).2
      GitHub.twoRecords rfl (by decide)
    refine ⟨s2, hit, ?_, ?_⟩
    · rw [hg1]
      norm_num [fdiv, Seconds, GitHub.State.fresh, Metrics.fresh]
    · rw [hg2]
      norm_num [fdiv, Seconds, GitHub.State.fresh, Metrics.fresh, GitHub.twoRecords]
  · obtain ⟨s2, hit, _, _, hg1, hg2⟩ := iteration_counts
      (GitHub.Env.answering GitHub.twoIssues) "t" "https://github.com/example/repo" (-Hour)
      (GitHub.State.fresh noFaults)
      (GitHub.fetchGitHubIssues (GitHub.Env.answering GitHub.twoIssues)
        "https://github.com/example/repo" "t" (-Hour) (GitHub.State.fresh noFaults)).2
      GitHub.twoRecords rfl (by decide)
    refine ⟨s2, hit, ?_, ?_⟩
    · rw [hg1]
      norm_num [fdiv, Seconds, Hour, Second, GitHub.State.fresh, Metrics.fresh]
    · rw [hg2]
      norm_num [fdiv, Seconds, Hour, Second, GitHub.State.fresh, Metrics.fresh,
        GitHub.twoRecords]

/-- C7, amended: the windows `main` passes are the positive constants 48 h, 7 d and 45 d in
both programs, and the GitHub loop body has no guard on the window. Run with a window that
is zero or negative and a fetch that succeeds, it does not skip the rate update: for a
negative window each gauge of the repository is set to the (exact) quotient of the current
counter by the window in seconds; for a window of zero the division by zero seconds sets
it to +Inf when the counter is positive, to NaN when the counter is zero (and to -Inf were
the counter negative). -/
theorem nonpositive_window_still_updates :
    (∀ d ∈ GitHub.durations, 0 < d) ∧
    (∀ d ∈ StackOverflow.durations, 0 < d) ∧
    (∀ (env : GitHub.Env) (token githubURL : String) (d : Duration) (s s1 : GitHub.State)
        (issues : List GitHub.GitHubIssue),
        d ≤ 0 →
        GitHub.fetchGitHubIssues env githubURL token d s = (.ok issues, s1) →
        ∃ s2, GitHub.iteration env token githubURL d s = some s2 ∧
          s2.metrics.apiCallsPerSecond githubURL =
            (if d < 0 then .num (s2.metrics.apiCalls githubURL / Seconds d)
              else if 0 < s2.metrics.apiCalls githubURL then .posInf
              else if s2.metrics.apiCalls githubURL < 0 then .negInf
              else .nan) ∧
          s2.metrics.dataCollectedPerSecond githubURL =
            (if d < 0 then .num (s2.metrics.dataCollected githubURL / Seconds d)
              else if 0 < s2.metrics.dataCollected githubURL then .posInf
              else if s2.metrics.dataCollected githubURL < 0 then .negInf
              else .nan)) := by
  refine ⟨by decide, by decide, ?_⟩
  intro env token githubURL d s s1 issues hd hf
  obtain ⟨s2, hit, _, _, hg1, hg2⟩ := iteration_of_fetch_ok env token githubURL d s s1 issues hf
  exact ⟨s2, hit, by rw [hg1, fdiv_nonpositive_window _ d hd],
    by rw [hg2, fdiv_nonpositive_window _ d hd]⟩

/-- Witness for C7, amended: the GitHub loop body at a window of zero. -/
theorem nonpositive_window_still_updates_witness :
    ∃ s2, GitHub.iteration (GitHub.Env.answering GitHub.twoIssues) "t"
        "https://github.com/example/repo" 0 (GitHub.State.fresh noFaults) = some s2 ∧
      s2.metrics.apiCallsPerSecond "https://github.com/example/repo" =
        (if (0 : Duration) < 0 then
            .num (s2.metrics.apiCalls "https://github.com/example/repo" / Seconds 0)
          else if 0 < s2.metrics.apiCalls "https://github.com/example/repo" then .posInf
          else if s2.metrics.apiCalls "https://github.com/example/repo" < 0 then .negInf
          else .nan) ∧
      s2.metrics.dataCollectedPerSecond "https://github.com/example/repo" =
        (if (0 : Duration) < 0 then
            .num (s2.metrics.dataCollected "https://github.com/example/repo" / Seconds 0)
          else if 0 < s2.metrics.dataCollected "https://github.com/example/repo" then .posInf
          else if s2.metrics.dataCollected "https://github.com/example/repo" < 0 then .negInf
          else .nan) :=
  nonpositive_window_still_updates.2.2 (GitHub.Env.answering GitHub.twoIssues) "t"
    "https://github.com/example/repo" 0 (GitHub.State.fresh noFaults)
    (GitHub.fetchGitHubIssues (GitHub.Env.answering GitHub.twoIssues)
      "https://github.com/example/repo" "t" 0 (GitHub.State.fresh noFaults)).2
    GitHub.twoRecords (by decide) rfl

end Collector
